import Mathlib

/-!
# Formal model of the Gesture-Smart gesture recognizer

Shallow embedding of `src/gesture_recognizer.py` together with the pieces of
`src/utils.py` (`calculate_distance`, `get_center_point`) and the constants of
`src/config.py` that the recognizer reads.  Pixel coordinates and distances are
modelled as real numbers, the frame-counted debounce counters as integers
(Python `int`), and the event returned by `GestureRecognizer.recognize`
(a string, or a dict for scroll events) as a closed inductive type.

Python raising `IndexError` (indexing a landmark list that is too short) is
modelled by `Except`: `Except.error s` carries the recognizer state as it was
at the moment of the raise, `Except.ok (e, s)` is a normal return of event `e`
with post-call state `s`.
-/

/-- One hand landmark: a pixel position plus relative depth
(`LandmarkPoint` of the spec; a row of the `(21, 3)` landmark array). -/
structure Point where
  x : ℝ
  y : ℝ
  z : ℝ

/-- `utils.calculate_distance`: Euclidean distance between two points,
`np.linalg.norm(np.array(p1) - np.array(p2))`. -/
noncomputable def calculate_distance (p1 p2 : Point) : ℝ :=
  Real.sqrt ((p1.x - p2.x) ^ 2 + (p1.y - p2.y) ^ 2 + (p1.z - p2.z) ^ 2)

/-- `utils.get_center_point`: `np.mean(landmarks, axis=0)`. -/
noncomputable def get_center_point (landmarks : List Point) : Point :=
  ⟨(landmarks.map Point.x).sum / (landmarks.length : ℝ),
   (landmarks.map Point.y).sum / (landmarks.length : ℝ),
   (landmarks.map Point.z).sum / (landmarks.length : ℝ)⟩

/-- One entry of the `hands_data` list handed to `GestureRecognizer.recognize`:
a dict with a `'landmarks'` array and a `'handedness'` label. -/
structure Hand where
  landmarks : List Point
  handedness : String

/-- The configuration constants of `src/config.py` read by the recognizer. -/
structure Config where
  PINCH_THRESHOLD : ℝ
  SCROLL_SENSITIVITY : ℝ
  ZOOM_SENSITIVITY : ℝ
  DEBOUNCE_TIME : ℤ
  DEBOUNCE_TIME_SHORT : ℤ
  DEBOUNCE_TIME_LONG : ℤ

/-- The concrete values assigned in `src/config.py`. -/
def defaultConfig : Config where
  PINCH_THRESHOLD := 35
  SCROLL_SENSITIVITY := 20
  ZOOM_SENSITIVITY := 25
  DEBOUNCE_TIME := 10
  DEBOUNCE_TIME_SHORT := 5
  DEBOUNCE_TIME_LONG := 15

/-- Direction payload of the scroll event dict
`{'gesture': 'SCROLL', 'direction': ...}`. -/
inductive ScrollDir where
  | UP
  | DOWN
deriving DecidableEq

/-- The event value returned by `GestureRecognizer.recognize`: one of the
strings returned by the source, with the scroll dict as a tagged variant. -/
inductive Gesture where
  | NONE
  | START_DRAG
  | DRAG_HOLD
  | RELEASE_HOLD
  | LEFT_CLICK
  | RIGHT_CLICK
  | ZOOM_IN
  | ZOOM_OUT
  | CURSOR_MOVE
  | SCROLL (direction : ScrollDir)
deriving DecidableEq

/-- The mutable attributes of a `GestureRecognizer` instance. -/
structure RecognizerState where
  last_gesture : String
  drag_started : Bool
  last_hand_y : ℝ
  last_zoom_dist : ℝ
  click_debounce_counter : ℤ
  scroll_debounce_counter : ℤ
  zoom_debounce_counter : ℤ
  tab_switch_debounce_counter : ℤ
  desktop_switch_debounce_counter : ℤ

/-- The attribute values set by `GestureRecognizer.__init__`. -/
def initState : RecognizerState where
  last_gesture := "NONE"
  drag_started := false
  last_hand_y := 0
  last_zoom_dist := 0
  click_debounce_counter := 0
  scroll_debounce_counter := 0
  zoom_debounce_counter := 0
  tab_switch_debounce_counter := 0
  desktop_switch_debounce_counter := 0

/-- `GestureRecognizer._update_debounce_counters`: decrement every counter
that is strictly positive by 1. -/
def _update_debounce_counters (s : RecognizerState) : RecognizerState :=
  { s with
    click_debounce_counter :=
      if s.click_debounce_counter > 0 then s.click_debounce_counter - 1
      else s.click_debounce_counter
    scroll_debounce_counter :=
      if s.scroll_debounce_counter > 0 then s.scroll_debounce_counter - 1
      else s.scroll_debounce_counter
    zoom_debounce_counter :=
      if s.zoom_debounce_counter > 0 then s.zoom_debounce_counter - 1
      else s.zoom_debounce_counter
    tab_switch_debounce_counter :=
      if s.tab_switch_debounce_counter > 0 then s.tab_switch_debounce_counter - 1
      else s.tab_switch_debounce_counter
    desktop_switch_debounce_counter :=
      if s.desktop_switch_debounce_counter > 0 then s.desktop_switch_debounce_counter - 1
      else s.desktop_switch_debounce_counter }

/-- `GestureRecognizer._get_finger_states`.  Indexing the landmark array is
modelled with `List.get?`; any missing index makes the whole call fail (the
Python `IndexError`).  Note that for the thumb, both compared landmarks are
`landmarks[3]`: `tip_ids[0] - 1 = 3`, which is also `pip_ids[0]`. -/
noncomputable def _get_finger_states (landmarks : List Point) : Option (List Bool) := do
  let tip0 ← landmarks.get? 4
  let pip0 ← landmarks.get? 3
  -- `landmarks[tip_ids[0] - 1]` is `landmarks[3]`, the same landmark as `pip0`.
  let thumb : Bool :=
    if tip0.x > pip0.x then decide (tip0.x > pip0.x) else decide (tip0.x < pip0.x)
  let tip1 ← landmarks.get? 8
  let pip1 ← landmarks.get? 6
  let tip2 ← landmarks.get? 12
  let pip2 ← landmarks.get? 10
  let tip3 ← landmarks.get? 16
  let pip3 ← landmarks.get? 14
  let tip4 ← landmarks.get? 20
  let pip4 ← landmarks.get? 18
  return [thumb, decide (tip1.y < pip1.y), decide (tip2.y < pip2.y),
          decide (tip3.y < pip3.y), decide (tip4.y < pip4.y)]

/-- Source comment "6. Open Hand (Cursor Movement)" and the final
`return "NONE"` of `GestureRecognizer.recognize`. -/
def rule_cursor_move (num_fingers_up : ℕ) (s : RecognizerState) :
    Gesture × RecognizerState :=
  if 4 ≤ num_fingers_up then (Gesture.CURSOR_MOVE, s) else (Gesture.NONE, s)

/-- Source comment "5. Scrolling (Vertical Movement)" of
`GestureRecognizer.recognize`, followed by the open-hand rule.  A scroll event
returns before `self.last_hand_y = hand_y` runs; on every non-returning path
`last_hand_y` is set to the wrist y (`landmarks[0][1]`). -/
noncomputable def rule_scroll (config : Config) (num_fingers_up : ℕ) (wrist_y : ℝ)
    (s : RecognizerState) : Gesture × RecognizerState :=
  if num_fingers_up = 5 ∧ s.scroll_debounce_counter = 0 then
    let y_delta := wrist_y - s.last_hand_y
    if |y_delta| > config.SCROLL_SENSITIVITY then
      ((if y_delta < 0 then Gesture.SCROLL ScrollDir.UP else Gesture.SCROLL ScrollDir.DOWN),
       { s with scroll_debounce_counter := config.DEBOUNCE_TIME_SHORT })
    else rule_cursor_move num_fingers_up { s with last_hand_y := wrist_y }
  else rule_cursor_move num_fingers_up { s with last_hand_y := wrist_y }

/-- Source comment "4. Zoom Gesture (Pinch In/Out)" of
`GestureRecognizer.recognize`, followed by the scroll and open-hand rules.
A zoom event returns before `self.last_zoom_dist = index_thumb_dist` runs;
when the finger shape fails, `last_zoom_dist` is reset to 0. -/
noncomputable def rule_zoom (config : Config) (num_fingers_up : ℕ) (thumb index : Bool)
    (index_thumb_dist wrist_y : ℝ) (s : RecognizerState) : Gesture × RecognizerState :=
  if num_fingers_up = 2 ∧ thumb = true ∧ index = true then
    if s.zoom_debounce_counter = 0 ∧
        |index_thumb_dist - s.last_zoom_dist| > config.ZOOM_SENSITIVITY then
      ((if index_thumb_dist - s.last_zoom_dist > 0 then Gesture.ZOOM_IN else Gesture.ZOOM_OUT),
       { s with zoom_debounce_counter := config.DEBOUNCE_TIME_LONG })
    else rule_scroll config num_fingers_up wrist_y { s with last_zoom_dist := index_thumb_dist }
  else rule_scroll config num_fingers_up wrist_y { s with last_zoom_dist := 0 }

/-- The ordered single-hand rule chain of `GestureRecognizer.recognize`
(lines after the finger states and the two distances are computed), with the
finger states and distances passed in.  Rules whose condition fails fall
through to the next rule, exactly as the early-`return` chain of the source. -/
noncomputable def classify (config : Config) (thumb index middle ring pinky : Bool)
    (index_thumb_dist middle_thumb_dist wrist_y : ℝ) (s : RecognizerState) :
    Gesture × RecognizerState :=
  let num_fingers_up : ℕ := [thumb, index, middle, ring, pinky].count true
  -- 1. Closed Fist (Drag Start) / Release Hold
  if num_fingers_up = 0 then
    if s.drag_started = false then (Gesture.START_DRAG, { s with drag_started := true })
    else (Gesture.DRAG_HOLD, s)
  else if 3 < num_fingers_up ∧ s.drag_started = true then
    (Gesture.RELEASE_HOLD, { s with drag_started := false })
  -- 2. Index-Thumb Pinch (Left Click): the thumb state is not consulted
  else if index = true ∧ (middle = false ∧ ring = false ∧ pinky = false) ∧
      index_thumb_dist < config.PINCH_THRESHOLD ∧ s.click_debounce_counter = 0 then
    (Gesture.LEFT_CLICK, { s with click_debounce_counter := config.DEBOUNCE_TIME })
  -- 3. Two-Finger Pinch (Right Click)
  else if middle = true ∧ index = false ∧ (ring = false ∧ pinky = false) ∧
      middle_thumb_dist < config.PINCH_THRESHOLD ∧ s.click_debounce_counter = 0 then
    (Gesture.RIGHT_CLICK, { s with click_debounce_counter := config.DEBOUNCE_TIME })
  else
    rule_zoom config num_fingers_up thumb index index_thumb_dist wrist_y s

/-- The single-hand part of `GestureRecognizer.recognize`
(`hand = hands_data[0]` onward).  All landmark indexing that the source
performs (inside `_get_finger_states`, for the two distances, and for the
wrist) is gathered here; any missing index raises, modelled as
`Except.error` carrying the state at the raise.  A successful
`_get_finger_states` always yields a 5-element list and implies that indices
0, 4, 8, 12 exist, so the catch-all arm is unreachable on those runs. -/
noncomputable def recognize_single_hand (config : Config) (hand : Hand)
    (s : RecognizerState) : Except RecognizerState (Gesture × RecognizerState) :=
  match _get_finger_states hand.landmarks, hand.landmarks.get? 0,
      hand.landmarks.get? 4, hand.landmarks.get? 8, hand.landmarks.get? 12 with
  | some [thumb, index, middle, ring, pinky], some lm0, some lm4, some lm8, some lm12 =>
    Except.ok (classify config thumb index middle ring pinky
      (calculate_distance lm4 lm8) (calculate_distance lm4 lm12) lm0.y s)
  | _, _, _, _, _ => Except.error s

/-- `GestureRecognizer._recognize_two_hand_gestures`: computes the two
centroids, then unconditionally returns `"NONE"` without touching state. -/
noncomputable def _recognize_two_hand_gestures (hands_data : List Hand)
    (s : RecognizerState) : Gesture × RecognizerState :=
  let _center1 := (hands_data.get? 0).map fun h => get_center_point h.landmarks
  let _center2 := (hands_data.get? 1).map fun h => get_center_point h.landmarks
  (Gesture.NONE, s)

/-- `GestureRecognizer.recognize`: decrement the debounce counters, then
dispatch on the number of observed hands. -/
noncomputable def recognize (config : Config) (hands_data : List Hand)
    (s0 : RecognizerState) : Except RecognizerState (Gesture × RecognizerState) :=
  let s := _update_debounce_counters s0
  match hands_data with
  | [] =>
    if s.drag_started = true then
      Except.ok (Gesture.RELEASE_HOLD, { s with drag_started := false })
    else
      Except.ok (Gesture.NONE, { s with last_gesture := "NONE" })
  | hand :: rest =>
    if (hand :: rest).length = 2 ∧ s.desktop_switch_debounce_counter = 0 then
      Except.ok (_recognize_two_hand_gestures (hand :: rest) s)
    else
      recognize_single_hand config hand s

/-- The recognizer state after a call, whether it returned or raised. -/
def exceptState : Except RecognizerState (Gesture × RecognizerState) → RecognizerState
  | Except.error s => s
  | Except.ok es => es.2

/-- The event returned by a call, `none` if the call raised. -/
def exceptEvent : Except RecognizerState (Gesture × RecognizerState) → Option Gesture
  | Except.error _ => none
  | Except.ok es => some es.1

/-- Run `recognize` over a list of frames, collecting the events; a raise
aborts the run (as an uncaught exception would abort the caller's loop). -/
noncomputable def runRec (config : Config) :
    List (List Hand) → RecognizerState → List Gesture × RecognizerState
  | [], s => ([], s)
  | f :: fs, s =>
    match recognize config f s with
    | Except.ok (e, s2) =>
      let r := runRec config fs s2
      (e :: r.1, r.2)
    | Except.error s2 => ([], s2)

/-- Iterate `recognize` on the empty (zero-hand) frame. -/
noncomputable def iterZero (config : Config) : ℕ → RecognizerState → RecognizerState
  | 0, s => s
  | n + 1, s => iterZero config n (exceptState (recognize config [] s))

/-! ## Shared evaluation helpers and concrete inputs -/

/-- A landmark in the image plane (depth 0). -/
def P (a b : ℝ) : Point := ⟨a, b, 0⟩

/-- Build a 21-landmark list fixing the indices the recognizer reads
(0, 3, 4, 6, 8, 10, 12, 14, 16, 18, 20); the rest are the origin. -/
def mkLm (p0 p3 p4 p6 p8 p10 p12 p14 p16 p18 p20 : Point) : List Point :=
  [p0, P 0 0, P 0 0, p3, p4, P 0 0, p6, P 0 0, p8, P 0 0, p10,
   P 0 0, p12, P 0 0, p14, P 0 0, p16, P 0 0, p18, P 0 0, p20]

theorem mkLm_finger_states (p0 p3 p4 p6 p8 p10 p12 p14 p16 p18 p20 : Point) :
    _get_finger_states (mkLm p0 p3 p4 p6 p8 p10 p12 p14 p16 p18 p20) =
      some [if p4.x > p3.x then decide (p4.x > p3.x) else decide (p4.x < p3.x),
            decide (p8.y < p6.y), decide (p12.y < p10.y),
            decide (p16.y < p14.y), decide (p20.y < p18.y)] := rfl

theorem calculate_distance_vertical (a y1 y2 : ℝ) (d : ℝ) (hd : 0 ≤ d)
    (h : |y1 - y2| = d) : calculate_distance (P a y1) (P a y2) = d := by
  have : (y1 - y2) ^ 2 = d ^ 2 := by rw [← sq_abs, h]
  simp only [calculate_distance, P, sub_self, ne_eq]
  rw [this]
  simpa using Real.sqrt_sq hd

/-- `recognize` on a one-hand frame runs the single-hand classifier on the
decremented state. -/
theorem recognize_one (config : Config) (hand : Hand) (s : RecognizerState) :
    recognize config [hand] s = recognize_single_hand config hand (_update_debounce_counters s) := rfl

/-- Work horse: on a one-hand frame whose landmarks resolve, `recognize` is
`classify` on the extracted finger states, distances and wrist y. -/
theorem recognize_one_hand_eq (config : Config) (hand : Hand) (s : RecognizerState)
    (f0 f1 f2 f3 f4 : Bool) (p0 p4 p8 p12 : Point)
    (hfs : _get_finger_states hand.landmarks = some [f0, f1, f2, f3, f4])
    (h0 : hand.landmarks.get? 0 = some p0)
    (h4 : hand.landmarks.get? 4 = some p4)
    (h8 : hand.landmarks.get? 8 = some p8)
    (h12 : hand.landmarks.get? 12 = some p12) :
    recognize config [hand] s =
      Except.ok (classify config f0 f1 f2 f3 f4 (calculate_distance p4 p8)
        (calculate_distance p4 p12) p0.y (_update_debounce_counters s)) := by
  rw [recognize_one, recognize_single_hand, hfs, h0, h4, h8, h12]

/-- A one-hand frame whose hand has a single landmark (a malformed
observation: fewer than 21 landmarks). -/
def shortHand : Hand := ⟨[P 0 0], "Right"⟩

/-- Only the index finger extended (thumb tip and landmark 3 share their x,
so the thumb reads curled); thumb–index distance 20, wrist y 300. -/
def clickHand : Hand :=
  ⟨mkLm (P 0 300) (P 0 0) (P 0 0) (P 0 0) (P 0 (-20)) (P 0 0) (P 0 10)
    (P 0 0) (P 0 10) (P 0 0) (P 0 10), "Right"⟩

/-- Thumb and index extended, pinched: thumb–index distance 20. -/
def thumbClickHand : Hand :=
  ⟨mkLm (P 0 300) (P 1 0) (P 0 0) (P 0 0) (P 0 (-20)) (P 0 0) (P 0 10)
    (P 0 0) (P 0 10) (P 0 0) (P 0 10), "Right"⟩

/-- Thumb and index extended, spread: thumb–index distance 80. -/
def zoomHand : Hand :=
  ⟨mkLm (P 0 300) (P 1 0) (P 0 0) (P 0 0) (P 0 (-80)) (P 0 0) (P 0 10)
    (P 0 0) (P 0 10) (P 0 0) (P 0 10), "Right"⟩

/-- A closed fist: no finger extended (thumb tip x equals landmark 3 x),
wrist y 123. -/
def fistHand : Hand :=
  ⟨mkLm (P 0 123) (P 0 0) (P 0 0) (P 0 0) (P 0 10) (P 0 0) (P 0 10)
    (P 0 0) (P 0 10) (P 0 0) (P 0 10), "Right"⟩

/-- All five fingers extended, wrist y 250. -/
def openHand : Hand :=
  ⟨mkLm (P 0 250) (P 1 0) (P 0 0) (P 0 0) (P 0 (-10)) (P 0 0) (P 0 (-10))
    (P 0 0) (P 0 (-10)) (P 0 0) (P 0 (-10)), "Right"⟩

def dragState : RecognizerState := { initState with drag_started := true }

def zoomState : RecognizerState := { initState with last_zoom_dist := 50 }

def scrollState : RecognizerState := { initState with last_hand_y := 300 }

def ctrState : RecognizerState :=
  { initState with
    click_debounce_counter := 5
    scroll_debounce_counter := 3
    zoom_debounce_counter := 1
    tab_switch_debounce_counter := 2
    desktop_switch_debounce_counter := 4 }

theorem dec_initState : _update_debounce_counters initState = initState := rfl

/-- A successful finger-state extraction needs all 21 landmarks. -/
theorem get_finger_states_some_length (lm : List Point) (fs : List Bool)
    (h : _get_finger_states lm = some fs) : 21 ≤ lm.length := by
  simp only [_get_finger_states, bind, Option.bind_eq_some] at h
  obtain ⟨a1, ha1, a2, ha2, a3, ha3, a4, ha4, a5, ha5, a6, ha6, a7, ha7, a8, ha8,
    a9, ha9, a10, ha10, -⟩ := h
  by_contra hlt
  rw [List.get?_eq_none.2 (by omega)] at ha9
  exact Option.noConfusion ha9

/-- With fewer than 21 landmarks, `_get_finger_states` raises. -/
theorem get_finger_states_none_of_short (lm : List Point) (hlen : lm.length < 21) :
    _get_finger_states lm = none := by
  rcases h : _get_finger_states lm with _ | fs
  · rfl
  · have := get_finger_states_some_length lm fs h
    omega

/-! ## Claim C5 -/

/-- C5: on a zero-hand frame, if `drag_started` was set the call emits
`RELEASE_HOLD` and clears the flag; otherwise it emits `NONE` and, apart from
the debounce decrements (and the dead `last_gesture` attribute, which is
re-assigned its constant value `"NONE"`), changes nothing: `drag_started`,
`last_hand_y` and `last_zoom_dist` are unchanged and every counter is
decremented exactly when it was positive. -/
theorem recognize_zero_hands_spec (config : Config) (s : RecognizerState) :
    (s.drag_started = true →
      recognize config [] s =
        Except.ok (Gesture.RELEASE_HOLD,
          { _update_debounce_counters s with drag_started := false })) ∧
    (s.drag_started = false →
      recognize config [] s =
        Except.ok (Gesture.NONE,
          { _update_debounce_counters s with last_gesture := "NONE" }) ∧
      (exceptState (recognize config [] s)).drag_started = s.drag_started ∧
      (exceptState (recognize config [] s)).last_hand_y = s.last_hand_y ∧
      (exceptState (recognize config [] s)).last_zoom_dist = s.last_zoom_dist ∧
      (exceptState (recognize config [] s)).click_debounce_counter =
        (if s.click_debounce_counter > 0 then s.click_debounce_counter - 1
         else s.click_debounce_counter) ∧
      (exceptState (recognize config [] s)).scroll_debounce_counter =
        (if s.scroll_debounce_counter > 0 then s.scroll_debounce_counter - 1
         else s.scroll_debounce_counter) ∧
      (exceptState (recognize config [] s)).zoom_debounce_counter =
        (if s.zoom_debounce_counter > 0 then s.zoom_debounce_counter - 1
         else s.zoom_debounce_counter) ∧
      (exceptState (recognize config [] s)).tab_switch_debounce_counter =
        (if s.tab_switch_debounce_counter > 0 then s.tab_switch_debounce_counter - 1
         else s.tab_switch_debounce_counter) ∧
      (exceptState (recognize config [] s)).desktop_switch_debounce_counter =
        (if s.desktop_switch_debounce_counter > 0 then s.desktop_switch_debounce_counter - 1
         else s.desktop_switch_debounce_counter)) := by
  constructor
  · intro h
    simp [recognize, _update_debounce_counters, h]
  · intro h
    simp [recognize, exceptState, _update_debounce_counters, h]

theorem recognize_zero_hands_spec_witness :
    dragState.drag_started = true ∧
    recognize defaultConfig [] dragState =
      Except.ok (Gesture.RELEASE_HOLD,
        { _update_debounce_counters dragState with drag_started := false }) ∧
    initState.drag_started = false ∧
    recognize defaultConfig [] initState =
      Except.ok (Gesture.NONE,
        { _update_debounce_counters initState with last_gesture := "NONE" }) :=
  ⟨rfl, (recognize_zero_hands_spec defaultConfig dragState).1 rfl, rfl,
    ((recognize_zero_hands_spec defaultConfig initState).2 rfl).1⟩

/-! ## Claim C9 -/

/-- C9: on a frame with exactly two hands and `desktop_switch_debounce_counter`
zero, the call returns `NONE` whatever the landmarks are, and the resulting
state is exactly the decremented input state; in particular `drag_started`,
`last_hand_y` and `last_zoom_dist` are unchanged, so an open drag is not
released. -/
theorem recognize_two_hands_stub_spec (config : Config) (h1 h2 : Hand)
    (s : RecognizerState) (hdesk : s.desktop_switch_debounce_counter = 0) :
    recognize config [h1, h2] s =
      Except.ok (Gesture.NONE, _update_debounce_counters s) ∧
    (_update_debounce_counters s).drag_started = s.drag_started ∧
    (_update_debounce_counters s).last_hand_y = s.last_hand_y ∧
    (_update_debounce_counters s).last_zoom_dist = s.last_zoom_dist := by
  refine ⟨?_, rfl, rfl, rfl⟩
  simp [recognize, _recognize_two_hand_gestures, _update_debounce_counters, hdesk]

theorem recognize_two_hands_stub_spec_witness :
    dragState.desktop_switch_debounce_counter = 0 ∧
    recognize defaultConfig [⟨[], "Left"⟩, ⟨[P 5 7], "Right"⟩] dragState =
      Except.ok (Gesture.NONE, _update_debounce_counters dragState) ∧
    (_update_debounce_counters dragState).drag_started = dragState.drag_started :=
  ⟨rfl, (recognize_two_hands_stub_spec defaultConfig ⟨[], "Left"⟩ ⟨[P 5 7], "Right"⟩
      dragState rfl).1,
    (recognize_two_hands_stub_spec defaultConfig ⟨[], "Left"⟩ ⟨[P 5 7], "Right"⟩
      dragState rfl).2.1⟩

/-! ## Claim C3 -/

/-- C3 counterexample: on a one-hand frame whose hand has a single landmark,
`recognize` raises (modelled as `Except.error`) and does not return the `NONE`
event the claim requires.  From `initState` (all counters 0, so the decrement
changes nothing) the claim predicts `Except.ok (Gesture.NONE, initState)`. -/
theorem recognize_malformed_cex :
    recognize defaultConfig [shortHand] initState = Except.error initState ∧
    recognize defaultConfig [shortHand] initState ≠
      Except.ok (Gesture.NONE, initState) := by
  have h : recognize defaultConfig [shortHand] initState = Except.error initState := by
    rw [recognize_one, dec_initState, recognize_single_hand,
      get_finger_states_none_of_short shortHand.landmarks (by norm_num [shortHand])]
  exact ⟨h, by simp [h]⟩

/-- C3 (amended): on every frame that is dispatched to the single-hand
classifier — any nonempty frame except exactly two hands with a zero
post-decrement desktop-switch counter, which takes the two-hand stub and
returns `NONE` without indexing any landmark — whose first hand has fewer
than 21 landmarks, `recognize` raises an index error (modelled as
`Except.error`) instead of returning an event; the debounce decrement has
already happened at the raise, and `drag_started`, `last_hand_y`,
`last_zoom_dist` are unchanged. -/
theorem recognize_malformed_raises (config : Config) (hand : Hand)
    (rest : List Hand) (s : RecognizerState)
    (hlen : hand.landmarks.length < 21)
    (hdisp : ¬((hand :: rest).length = 2 ∧
      (_update_debounce_counters s).desktop_switch_debounce_counter = 0)) :
    recognize config (hand :: rest) s =
      Except.error (_update_debounce_counters s) ∧
    (_update_debounce_counters s).drag_started = s.drag_started ∧
    (_update_debounce_counters s).last_hand_y = s.last_hand_y ∧
    (_update_debounce_counters s).last_zoom_dist = s.last_zoom_dist := by
  refine ⟨?_, rfl, rfl, rfl⟩
  unfold recognize
  dsimp only
  rw [if_neg hdisp, recognize_single_hand,
    get_finger_states_none_of_short hand.landmarks hlen]

theorem recognize_malformed_raises_witness :
    shortHand.landmarks.length < 21 ∧
    ([shortHand] : List Hand).length ≠ 2 ∧
    recognize defaultConfig [shortHand] dragState =
      Except.error (_update_debounce_counters dragState) :=
  ⟨by norm_num [shortHand], by norm_num,
    (recognize_malformed_raises defaultConfig shortHand [] dragState
      (by norm_num [shortHand]) (fun h => absurd h.1 (by norm_num))).1⟩

/-! ## Finger-state evaluations for the concrete hands -/

theorem clickHand_fs :
    _get_finger_states clickHand.landmarks = some [false, true, false, false, false] := by
  rw [show clickHand.landmarks =
      mkLm (P 0 300) (P 0 0) (P 0 0) (P 0 0) (P 0 (-20)) (P 0 0) (P 0 10)
        (P 0 0) (P 0 10) (P 0 0) (P 0 10) from rfl, mkLm_finger_states]
  norm_num [P]

theorem thumbClickHand_fs :
    _get_finger_states thumbClickHand.landmarks = some [true, true, false, false, false] := by
  rw [show thumbClickHand.landmarks =
      mkLm (P 0 300) (P 1 0) (P 0 0) (P 0 0) (P 0 (-20)) (P 0 0) (P 0 10)
        (P 0 0) (P 0 10) (P 0 0) (P 0 10) from rfl, mkLm_finger_states]
  norm_num [P]

theorem zoomHand_fs :
    _get_finger_states zoomHand.landmarks = some [true, true, false, false, false] := by
  rw [show zoomHand.landmarks =
      mkLm (P 0 300) (P 1 0) (P 0 0) (P 0 0) (P 0 (-80)) (P 0 0) (P 0 10)
        (P 0 0) (P 0 10) (P 0 0) (P 0 10) from rfl, mkLm_finger_states]
  norm_num [P]

theorem fistHand_fs :
    _get_finger_states fistHand.landmarks = some [false, false, false, false, false] := by
  rw [show fistHand.landmarks =
      mkLm (P 0 123) (P 0 0) (P 0 0) (P 0 0) (P 0 10) (P 0 0) (P 0 10)
        (P 0 0) (P 0 10) (P 0 0) (P 0 10) from rfl, mkLm_finger_states]
  norm_num [P]

theorem openHand_fs :
    _get_finger_states openHand.landmarks = some [true, true, true, true, true] := by
  rw [show openHand.landmarks =
      mkLm (P 0 250) (P 1 0) (P 0 0) (P 0 0) (P 0 (-10)) (P 0 0) (P 0 (-10))
        (P 0 0) (P 0 (-10)) (P 0 0) (P 0 (-10)) from rfl, mkLm_finger_states]
  norm_num [P]

/-! ## Claim C10 -/

/-- C10: the thumb entry of the finger-state vector is `true` exactly when the
thumb tip's x differs from landmark 3's x — both branches of the source
compare `landmarks[4][0]` against `landmarks[3][0]`, since `tip_ids[0] - 1 = 3`
is also `pip_ids[0]`.  Consequently an all-false vector (the fist shape that
triggers `START_DRAG`) forces `landmarks[4].x = landmarks[3].x` exactly. -/
theorem thumb_state_spec (lm : List Point) (p3 p4 : Point) (fs : List Bool)
    (h3 : lm.get? 3 = some p3) (h4 : lm.get? 4 = some p4)
    (hfs : _get_finger_states lm = some fs) :
    fs.head? = some (decide (p4.x ≠ p3.x)) ∧
    ((∀ b ∈ fs, b = false) → p4.x = p3.x) := by
  simp only [_get_finger_states, bind, Option.bind_eq_some] at hfs
  obtain ⟨a1, ha1, a2, ha2, a3, ha3, a4, ha4, a5, ha5, a6, ha6, a7, ha7, a8, ha8,
    a9, ha9, a10, ha10, hret⟩ := hfs
  rw [h4] at ha1
  rw [h3] at ha2
  obtain rfl : p4 = a1 := Option.some_inj.1 ha1
  obtain rfl : p3 = a2 := Option.some_inj.1 ha2
  obtain rfl : [if p4.x > p3.x then decide (p4.x > p3.x) else decide (p4.x < p3.x),
      decide (a3.y < a4.y), decide (a5.y < a6.y), decide (a7.y < a8.y),
      decide (a9.y < a10.y)] = fs := by simpa using hret
  have hthumb : (if p4.x > p3.x then decide (p4.x > p3.x) else decide (p4.x < p3.x)) =
      decide (p4.x ≠ p3.x) := by
    rcases lt_trichotomy p4.x p3.x with h | h | h
    · rw [if_neg (by simp [not_lt, h.le])]
      simp [h, ne_of_lt h]
    · simp [h]
    · rw [if_pos h]
      simp [h, h.ne']
  refine ⟨by simp [hthumb], fun hall => ?_⟩
  have h0 := hall _ (List.mem_cons_self _ _)
  rw [hthumb] at h0
  simpa using h0

theorem thumb_state_spec_witness :
    zoomHand.landmarks.get? 3 = some (P 1 0) ∧
    zoomHand.landmarks.get? 4 = some (P 0 0) ∧
    ([true, true, false, false, false] : List Bool).head? =
      some (decide ((P 0 0).x ≠ (P 1 0).x)) :=
  ⟨rfl, rfl, (thumb_state_spec zoomHand.landmarks (P 1 0) (P 0 0)
    [true, true, false, false, false] rfl rfl zoomHand_fs).1⟩

/-! ## Events producible by the zoom/scroll/cursor tail of the rule chain -/

theorem rule_zoom_event_cases (config : Config) (n : ℕ) (t i : Bool) (d w : ℝ)
    (s : RecognizerState) :
    (rule_zoom config n t i d w s).1 = Gesture.ZOOM_IN ∨
    (rule_zoom config n t i d w s).1 = Gesture.ZOOM_OUT ∨
    (rule_zoom config n t i d w s).1 = Gesture.SCROLL ScrollDir.UP ∨
    (rule_zoom config n t i d w s).1 = Gesture.SCROLL ScrollDir.DOWN ∨
    (rule_zoom config n t i d w s).1 = Gesture.CURSOR_MOVE ∨
    (rule_zoom config n t i d w s).1 = Gesture.NONE := by
  unfold rule_zoom rule_scroll rule_cursor_move
  dsimp only
  repeat' split
  all_goals simp

theorem rule_zoom_event_ne_click (config : Config) (n : ℕ) (t i : Bool) (d w : ℝ)
    (s : RecognizerState) :
    (rule_zoom config n t i d w s).1 ≠ Gesture.LEFT_CLICK ∧
    (rule_zoom config n t i d w s).1 ≠ Gesture.RIGHT_CLICK := by
  rcases rule_zoom_event_cases config n t i d w s with h | h | h | h | h | h <;>
    rw [h] <;> simp

theorem rule_zoom_click_counter (config : Config) (n : ℕ) (t i : Bool) (d w : ℝ)
    (s : RecognizerState) :
    (rule_zoom config n t i d w s).2.click_debounce_counter =
      s.click_debounce_counter := by
  unfold rule_zoom rule_scroll rule_cursor_move
  dsimp only
  repeat' split
  all_goals rfl

/-! ## Claim C4 -/

/-- C4 counterexample: with thumb AND index extended, pinched
(`d_ti = 20 < PINCH_THRESHOLD = 35`) and a zero click counter, the code emits
`LEFT_CLICK` even though the thumb is classified as extended: the left-click
rule never consults the thumb state. -/
theorem left_click_with_thumb_cex :
    _get_finger_states thumbClickHand.landmarks =
      some [true, true, false, false, false] ∧
    exceptEvent (recognize defaultConfig [thumbClickHand] initState) =
      some Gesture.LEFT_CLICK := by
  refine ⟨thumbClickHand_fs, ?_⟩
  rw [recognize_one_hand_eq defaultConfig thumbClickHand initState true true false false
    false (P 0 300) (P 0 0) (P 0 (-20)) (P 0 10) thumbClickHand_fs rfl rfl rfl rfl,
    dec_initState,
    calculate_distance_vertical 0 0 (-20) 20 (by norm_num) (by norm_num)]
  unfold classify
  norm_num [exceptEvent, defaultConfig, initState]

/-- C4 (amended): on a single-hand frame on which neither the fist rule nor
the release-hold rule matches, `LEFT_CLICK` is emitted exactly when the index
is extended, middle, ring and pinky are not — the thumb state is ignored, so
the thumb may be extended — the thumb–index distance is below
`PINCH_THRESHOLD`, and the click debounce counter (after the per-call
decrement) is 0; on emission the counter is set to `DEBOUNCE_TIME`. -/
theorem left_click_iff_spec (config : Config) (hand : Hand) (s : RecognizerState)
    (f0 f1 f2 f3 f4 : Bool) (p0 p4 p8 p12 : Point)
    (hfs : _get_finger_states hand.landmarks = some [f0, f1, f2, f3, f4])
    (h0 : hand.landmarks.get? 0 = some p0)
    (h4 : hand.landmarks.get? 4 = some p4)
    (h8 : hand.landmarks.get? 8 = some p8)
    (h12 : hand.landmarks.get? 12 = some p12)
    (hnum : [f0, f1, f2, f3, f4].count true ≠ 0)
    (hrel : ¬(3 < [f0, f1, f2, f3, f4].count true ∧ s.drag_started = true)) :
    (exceptEvent (recognize config [hand] s) = some Gesture.LEFT_CLICK ↔
      (f1 = true ∧ f2 = false ∧ f3 = false ∧ f4 = false ∧
       calculate_distance p4 p8 < config.PINCH_THRESHOLD ∧
       (_update_debounce_counters s).click_debounce_counter = 0)) ∧
    (exceptEvent (recognize config [hand] s) = some Gesture.LEFT_CLICK →
      (exceptState (recognize config [hand] s)).click_debounce_counter =
        config.DEBOUNCE_TIME) := by
  rw [recognize_one_hand_eq config hand s f0 f1 f2 f3 f4 p0 p4 p8 p12 hfs h0 h4 h8 h12]
  have hdrag : (_update_debounce_counters s).drag_started = s.drag_started := rfl
  unfold classify
  rw [if_neg hnum, if_neg (by rw [hdrag]; exact hrel)]
  by_cases hL : f1 = true ∧ (f2 = false ∧ f3 = false ∧ f4 = false) ∧
      calculate_distance p4 p8 < config.PINCH_THRESHOLD ∧
      (_update_debounce_counters s).click_debounce_counter = 0
  · rw [if_pos hL]
    simp only [exceptEvent, exceptState]
    constructor
    · constructor
      · intro _
        tauto
      · intro _
        trivial
    · intro _
      trivial
  · rw [if_neg hL]
    split_ifs with hR
    · simp only [exceptEvent, exceptState]
      constructor
      · constructor
        · intro h
          exact absurd h (by simp)
        · intro h
          exact absurd hL (by tauto)
      · intro h
        exact absurd h (by simp)
    · simp only [exceptEvent, exceptState]
      have hne := (rule_zoom_event_ne_click config ([f0, f1, f2, f3, f4].count true) f0 f1
        (calculate_distance p4 p8) p0.y (_update_debounce_counters s)).1
      constructor
      · constructor
        · intro h
          exact absurd (Option.some_inj.1 h) hne
        · intro h
          exact absurd hL (by tauto)
      · intro h
        exact absurd (Option.some_inj.1 h) hne

theorem left_click_iff_spec_witness :
    exceptEvent (recognize defaultConfig [clickHand] initState) =
      some Gesture.LEFT_CLICK := by
  refine (left_click_iff_spec defaultConfig clickHand initState false true false false
    false (P 0 300) (P 0 0) (P 0 (-20)) (P 0 10) clickHand_fs rfl rfl rfl rfl
    (by decide) (by decide)).1.mpr ⟨rfl, rfl, rfl, rfl, ?_, rfl⟩
  rw [calculate_distance_vertical 0 0 (-20) 20 (by norm_num) (by norm_num)]
  norm_num [defaultConfig]

/-! ## Claim C8 -/

theorem dec_last_hand_y (s : RecognizerState) :
    (_update_debounce_counters s).last_hand_y = s.last_hand_y := rfl

theorem dec_last_zoom_dist (s : RecognizerState) :
    (_update_debounce_counters s).last_zoom_dist = s.last_zoom_dist := rfl

theorem dec_drag_started (s : RecognizerState) :
    (_update_debounce_counters s).drag_started = s.drag_started := rfl

/-- C8: on a single-hand frame with all five fingers extended, no open drag,
and a zero scroll debounce counter: if the wrist y moved by more than
`SCROLL_SENSITIVITY` from `last_hand_y`, the call emits `Scroll Up` for a
negative delta (`Scroll Down` for a positive one), sets the scroll counter to
`DEBOUNCE_TIME_SHORT`, and leaves `last_hand_y` unchanged on that call;
otherwise it sets `last_hand_y` to the wrist y. -/
theorem scroll_rule_spec (config : Config) (hand : Hand) (s : RecognizerState)
    (p0 p4 p8 p12 : Point)
    (hfs : _get_finger_states hand.landmarks = some [true, true, true, true, true])
    (h0 : hand.landmarks.get? 0 = some p0)
    (h4 : hand.landmarks.get? 4 = some p4)
    (h8 : hand.landmarks.get? 8 = some p8)
    (h12 : hand.landmarks.get? 12 = some p12)
    (hdrag : s.drag_started = false)
    (hscroll : s.scroll_debounce_counter = 0) :
    (|p0.y - s.last_hand_y| > config.SCROLL_SENSITIVITY →
      recognize config [hand] s = Except.ok
        ((if p0.y - s.last_hand_y < 0 then Gesture.SCROLL ScrollDir.UP
          else Gesture.SCROLL ScrollDir.DOWN),
         { _update_debounce_counters s with
            last_zoom_dist := 0
            scroll_debounce_counter := config.DEBOUNCE_TIME_SHORT }) ∧
      (exceptState (recognize config [hand] s)).last_hand_y = s.last_hand_y) ∧
    (¬(|p0.y - s.last_hand_y| > config.SCROLL_SENSITIVITY) →
      (exceptState (recognize config [hand] s)).last_hand_y = p0.y) := by
  have hsc : ({ _update_debounce_counters s with
      last_zoom_dist := (0:ℝ) }).scroll_debounce_counter = 0 := by
    show (if s.scroll_debounce_counter > 0 then s.scroll_debounce_counter - 1
      else s.scroll_debounce_counter) = 0
    rw [hscroll]
    norm_num
  have hrec : recognize config [hand] s =
      Except.ok (rule_scroll config (List.count true [true, true, true, true, true]) p0.y
        { _update_debounce_counters s with last_zoom_dist := 0 }) := by
    rw [recognize_one_hand_eq config hand s true true true true true p0 p4 p8 p12
      hfs h0 h4 h8 h12]
    unfold classify
    rw [if_neg (by decide)]
    rw [if_neg (show ¬(3 < List.count true [true, true, true, true, true] ∧
        (_update_debounce_counters s).drag_started = true) by
      rw [show (_update_debounce_counters s).drag_started = s.drag_started from rfl, hdrag]
      simp)]
    rw [if_neg (by simp)]
    rw [if_neg (by simp)]
    unfold rule_zoom
    rw [if_neg (by simp)]
  constructor
  · intro h
    have hfire : recognize config [hand] s = Except.ok
        ((if p0.y - s.last_hand_y < 0 then Gesture.SCROLL ScrollDir.UP
          else Gesture.SCROLL ScrollDir.DOWN),
         { _update_debounce_counters s with
            last_zoom_dist := 0
            scroll_debounce_counter := config.DEBOUNCE_TIME_SHORT }) := by
      rw [hrec]
      unfold rule_scroll
      rw [if_pos ⟨by decide, hsc⟩]
      dsimp only
      simp only [dec_last_hand_y]
      rw [if_pos (show |p0.y - s.last_hand_y| > config.SCROLL_SENSITIVITY from h)]
    exact ⟨hfire, by rw [hfire]; rfl⟩
  · intro h
    rw [hrec]
    unfold rule_scroll
    rw [if_pos ⟨by decide, hsc⟩]
    dsimp only
    simp only [dec_last_hand_y]
    rw [if_neg (show ¬(|p0.y - s.last_hand_y| > config.SCROLL_SENSITIVITY) from h)]
    unfold rule_cursor_move
    rw [if_pos (by decide)]
    rfl

theorem scroll_rule_spec_witness :
    scrollState.drag_started = false ∧
    scrollState.scroll_debounce_counter = 0 ∧
    |(P 0 250).y - scrollState.last_hand_y| > defaultConfig.SCROLL_SENSITIVITY ∧
    recognize defaultConfig [openHand] scrollState = Except.ok
      (Gesture.SCROLL ScrollDir.UP,
       { _update_debounce_counters scrollState with
          last_zoom_dist := 0
          scroll_debounce_counter := defaultConfig.DEBOUNCE_TIME_SHORT }) := by
  have habs : |(P 0 250).y - scrollState.last_hand_y| > defaultConfig.SCROLL_SENSITIVITY := by
    norm_num [P, scrollState, initState, defaultConfig]
  have h := (scroll_rule_spec defaultConfig openHand scrollState (P 0 250) (P 0 0)
    (P 0 (-10)) (P 0 (-10)) openHand_fs rfl rfl rfl rfl rfl rfl).1 habs
  refine ⟨rfl, rfl, habs, ?_⟩
  rw [h.1]
  norm_num [P, scrollState, initState]

/-! ## Claim C2 -/

theorem dec_zoomState : _update_debounce_counters zoomState = zoomState := rfl

/-- C2 counterexample: thumb and index extended, `last_zoom_dist = 50`, new
`d_ti = 80`, `ZOOM_SENSITIVITY = 25`: the call emits `ZOOM_IN`, but
`last_zoom_dist` stays 50 — the `return` happens before
`self.last_zoom_dist = index_thumb_dist` runs, so it does not become 80 as the
claim requires. -/
theorem zoom_fire_keeps_last_zoom_dist_cex :
    exceptEvent (recognize defaultConfig [zoomHand] zoomState) = some Gesture.ZOOM_IN ∧
    (exceptState (recognize defaultConfig [zoomHand] zoomState)).last_zoom_dist = 50 ∧
    (exceptState (recognize defaultConfig [zoomHand] zoomState)).last_zoom_dist ≠ 80 := by
  have hd : calculate_distance (P 0 0) (P 0 (-80)) = 80 :=
    calculate_distance_vertical 0 0 (-80) 80 (by norm_num) (by norm_num)
  rw [recognize_one_hand_eq defaultConfig zoomHand zoomState true true false false false
    (P 0 300) (P 0 0) (P 0 (-80)) (P 0 10) zoomHand_fs rfl rfl rfl rfl, hd, dec_zoomState]
  unfold classify rule_zoom
  norm_num [exceptEvent, exceptState, zoomState, initState, defaultConfig]

/-- C2 (amended): on a single-hand frame with exactly thumb and index extended,
zoom debounce counter 0 and `|d_ti - last_zoom_dist| > ZOOM_SENSITIVITY`,
provided the left-click rule does not preempt it (its pinch distance or click
counter condition fails), the call emits `ZOOM_IN` for a positive delta
(`ZOOM_OUT` for a negative one) and sets the zoom counter to
`DEBOUNCE_TIME_LONG`, but `last_zoom_dist` is left unchanged on that call —
it is updated to the new `d_ti` only on thumb+index calls where no zoom event
fires. -/
theorem zoom_fire_spec (config : Config) (hand : Hand) (s : RecognizerState)
    (p0 p4 p8 p12 : Point)
    (hfs : _get_finger_states hand.landmarks = some [true, true, false, false, false])
    (h0 : hand.landmarks.get? 0 = some p0)
    (h4 : hand.landmarks.get? 4 = some p4)
    (h8 : hand.landmarks.get? 8 = some p8)
    (h12 : hand.landmarks.get? 12 = some p12)
    (hzoom : s.zoom_debounce_counter = 0)
    (hdelta : |calculate_distance p4 p8 - s.last_zoom_dist| > config.ZOOM_SENSITIVITY)
    (hnoclick : ¬(calculate_distance p4 p8 < config.PINCH_THRESHOLD ∧
      (_update_debounce_counters s).click_debounce_counter = 0)) :
    recognize config [hand] s = Except.ok
      ((if calculate_distance p4 p8 - s.last_zoom_dist > 0 then Gesture.ZOOM_IN
        else Gesture.ZOOM_OUT),
       { _update_debounce_counters s with
          zoom_debounce_counter := config.DEBOUNCE_TIME_LONG }) ∧
    (exceptState (recognize config [hand] s)).last_zoom_dist = s.last_zoom_dist := by
  have hz : (_update_debounce_counters s).zoom_debounce_counter = 0 := by
    show (if s.zoom_debounce_counter > 0 then s.zoom_debounce_counter - 1
      else s.zoom_debounce_counter) = 0
    rw [hzoom]
    norm_num
  have hmain : recognize config [hand] s = Except.ok
      ((if calculate_distance p4 p8 - s.last_zoom_dist > 0 then Gesture.ZOOM_IN
        else Gesture.ZOOM_OUT),
       { _update_debounce_counters s with
          zoom_debounce_counter := config.DEBOUNCE_TIME_LONG }) := by
    rw [recognize_one_hand_eq config hand s true true false false false p0 p4 p8 p12
      hfs h0 h4 h8 h12]
    unfold classify
    rw [if_neg (by decide)]
    rw [if_neg (fun h => absurd h.1 (by decide))]
    rw [if_neg (fun h => hnoclick ⟨h.2.2.1, h.2.2.2⟩)]
    rw [if_neg (fun h => absurd h.1 (by decide))]
    unfold rule_zoom
    rw [if_pos ⟨by decide, rfl, rfl⟩]
    simp only [dec_last_zoom_dist]
    rw [if_pos ⟨hz, hdelta⟩]
  exact ⟨hmain, by rw [hmain]; rfl⟩

theorem zoom_fire_spec_witness :
    zoomState.zoom_debounce_counter = 0 ∧
    zoomState.last_zoom_dist = 50 ∧
    recognize defaultConfig [zoomHand] zoomState = Except.ok
      (Gesture.ZOOM_IN,
       { _update_debounce_counters zoomState with
          zoom_debounce_counter := defaultConfig.DEBOUNCE_TIME_LONG }) := by
  have hd : calculate_distance (P 0 0) (P 0 (-80)) = 80 :=
    calculate_distance_vertical 0 0 (-80) 80 (by norm_num) (by norm_num)
  have h := (zoom_fire_spec defaultConfig zoomHand zoomState (P 0 300) (P 0 0)
    (P 0 (-80)) (P 0 10) zoomHand_fs rfl rfl rfl rfl rfl
    (by rw [hd]; norm_num [zoomState, initState, defaultConfig])
    (by rw [hd]; norm_num [defaultConfig])).1
  refine ⟨rfl, rfl, ?_⟩
  rw [h, hd]
  norm_num [zoomState, initState]

/-! ## Claim C1 -/

/-- C1 counterexample: a fist frame from a state with `last_zoom_dist = 50`
and `last_hand_y = 0` (wrist y 123) emits `START_DRAG` and returns before the
zoom/scroll tracking updates run: `last_zoom_dist` stays 50 (the claim
requires 0, a fist not being a thumb+index shape) and `last_hand_y` stays 0
(the claim requires the wrist y 123). -/
theorem tracking_skipped_on_early_return_cex :
    exceptEvent (recognize defaultConfig [fistHand] zoomState) =
      some Gesture.START_DRAG ∧
    (exceptState (recognize defaultConfig [fistHand] zoomState)).last_zoom_dist = 50 ∧
    (exceptState (recognize defaultConfig [fistHand] zoomState)).last_zoom_dist ≠ 0 ∧
    (exceptState (recognize defaultConfig [fistHand] zoomState)).last_hand_y = 0 ∧
    (exceptState (recognize defaultConfig [fistHand] zoomState)).last_hand_y ≠ 123 := by
  rw [recognize_one_hand_eq defaultConfig fistHand zoomState false false false false false
    (P 0 123) (P 0 0) (P 0 10) (P 0 10) fistHand_fs rfl rfl rfl rfl, dec_zoomState]
  unfold classify
  norm_num [exceptEvent, exceptState, zoomState, initState]

theorem rule_cursor_move_snd (n : ℕ) (st : RecognizerState) :
    (rule_cursor_move n st).2 = st := by
  unfold rule_cursor_move
  split_ifs <;> rfl

theorem rule_scroll_snd_of_fallthrough (config : Config) (n : ℕ) (wy : ℝ)
    (st : RecognizerState)
    (h : (rule_scroll config n wy st).1 = Gesture.CURSOR_MOVE ∨
      (rule_scroll config n wy st).1 = Gesture.NONE) :
    (rule_scroll config n wy st).2 = { st with last_hand_y := wy } := by
  unfold rule_scroll at h ⊢
  by_cases hc : n = 5 ∧ st.scroll_debounce_counter = 0
  · rw [if_pos hc] at h ⊢
    dsimp only at h ⊢
    by_cases hf : |wy - st.last_hand_y| > config.SCROLL_SENSITIVITY
    · rw [if_pos hf] at h
      exfalso
      rcases h with h | h <;> revert h <;> split_ifs <;> simp
    · rw [if_neg hf]
      exact rule_cursor_move_snd n _
  · rw [if_neg hc]
    exact rule_cursor_move_snd n _

theorem rule_zoom_snd_of_fallthrough (config : Config) (n : ℕ) (t i : Bool)
    (d wy : ℝ) (st : RecognizerState)
    (h : (rule_zoom config n t i d wy st).1 = Gesture.CURSOR_MOVE ∨
      (rule_zoom config n t i d wy st).1 = Gesture.NONE) :
    (rule_zoom config n t i d wy st).2 =
      { st with
        last_zoom_dist := if n = 2 ∧ t = true ∧ i = true then d else 0
        last_hand_y := wy } := by
  unfold rule_zoom at h ⊢
  by_cases h1 : n = 2 ∧ t = true ∧ i = true
  · rw [if_pos h1] at h ⊢
    by_cases h2 : st.zoom_debounce_counter = 0 ∧
        |d - st.last_zoom_dist| > config.ZOOM_SENSITIVITY
    · rw [if_pos h2] at h
      exfalso
      rcases h with h | h <;> revert h <;> split_ifs <;> simp
    · rw [if_neg h2] at h ⊢
      rw [rule_scroll_snd_of_fallthrough config n wy _ h, if_pos h1]
  · rw [if_neg h1] at h ⊢
    rw [rule_scroll_snd_of_fallthrough config n wy _ h, if_neg h1]

theorem classify_snd_of_fallthrough (config : Config) (f0 f1 f2 f3 f4 : Bool)
    (dti dtm wy : ℝ) (st : RecognizerState)
    (h : (classify config f0 f1 f2 f3 f4 dti dtm wy st).1 = Gesture.CURSOR_MOVE ∨
      (classify config f0 f1 f2 f3 f4 dti dtm wy st).1 = Gesture.NONE) :
    (classify config f0 f1 f2 f3 f4 dti dtm wy st).2 =
      { st with
        last_zoom_dist :=
          if [f0, f1, f2, f3, f4].count true = 2 ∧ f0 = true ∧ f1 = true
          then dti else 0
        last_hand_y := wy } := by
  unfold classify at h ⊢
  dsimp only at h ⊢
  by_cases hA : [f0, f1, f2, f3, f4].count true = 0
  · rw [if_pos hA] at h
    exfalso
    rcases h with h | h <;> revert h <;> split_ifs <;> simp
  rw [if_neg hA] at h ⊢
  by_cases hB : 3 < [f0, f1, f2, f3, f4].count true ∧ st.drag_started = true
  · rw [if_pos hB] at h
    exfalso
    rcases h with h | h <;> simp at h
  rw [if_neg hB] at h ⊢
  by_cases hC : f1 = true ∧ (f2 = false ∧ f3 = false ∧ f4 = false) ∧
      dti < config.PINCH_THRESHOLD ∧ st.click_debounce_counter = 0
  · rw [if_pos hC] at h
    exfalso
    rcases h with h | h <;> simp at h
  rw [if_neg hC] at h ⊢
  by_cases hD : f2 = true ∧ f1 = false ∧ (f3 = false ∧ f4 = false) ∧
      dtm < config.PINCH_THRESHOLD ∧ st.click_debounce_counter = 0
  · rw [if_pos hD] at h
    exfalso
    rcases h with h | h <;> simp at h
  rw [if_neg hD] at h ⊢
  exact rule_zoom_snd_of_fallthrough config _ f0 f1 dti wy st h

/-- C1 (amended): the rule 5/6 tracking updates run only on calls where no
earlier rule returned.  On a single-hand call that emits `CURSOR_MOVE` or
`NONE` (i.e. that falls through the whole chain), `last_zoom_dist` becomes
`d_ti` if exactly thumb+index are extended and 0 otherwise, and `last_hand_y`
becomes the wrist y.  Calls that return earlier — `START_DRAG`, `DRAG_HOLD`,
`RELEASE_HOLD`, `LEFT_CLICK`, `RIGHT_CLICK`, and also the zoom and scroll
emissions themselves — skip the updates that follow their `return`. -/
theorem tracking_updates_on_fallthrough (config : Config) (hand : Hand)
    (s s' : RecognizerState) (e : Gesture) (f0 f1 f2 f3 f4 : Bool)
    (p0 p4 p8 p12 : Point)
    (hfs : _get_finger_states hand.landmarks = some [f0, f1, f2, f3, f4])
    (h0 : hand.landmarks.get? 0 = some p0)
    (h4 : hand.landmarks.get? 4 = some p4)
    (h8 : hand.landmarks.get? 8 = some p8)
    (h12 : hand.landmarks.get? 12 = some p12)
    (hres : recognize config [hand] s = Except.ok (e, s'))
    (he : e = Gesture.CURSOR_MOVE ∨ e = Gesture.NONE) :
    s'.last_hand_y = p0.y ∧
    s'.last_zoom_dist =
      (if [f0, f1, f2, f3, f4].count true = 2 ∧ f0 = true ∧ f1 = true
       then calculate_distance p4 p8 else 0) := by
  rw [recognize_one_hand_eq config hand s f0 f1 f2 f3 f4 p0 p4 p8 p12
    hfs h0 h4 h8 h12] at hres
  have hcl := Except.ok.inj hres
  have he' : (classify config f0 f1 f2 f3 f4 (calculate_distance p4 p8)
      (calculate_distance p4 p12) p0.y (_update_debounce_counters s)).1 =
        Gesture.CURSOR_MOVE ∨
      (classify config f0 f1 f2 f3 f4 (calculate_distance p4 p8)
      (calculate_distance p4 p12) p0.y (_update_debounce_counters s)).1 =
        Gesture.NONE := by
    rw [hcl]
    exact he
  have h2 := classify_snd_of_fallthrough config f0 f1 f2 f3 f4
    (calculate_distance p4 p8) (calculate_distance p4 p12) p0.y
    (_update_debounce_counters s) he'
  rw [hcl] at h2
  dsimp only at h2
  rw [h2]
  exact ⟨rfl, rfl⟩

def clickState2 : RecognizerState := { initState with click_debounce_counter := 2 }

theorem tracking_updates_on_fallthrough_witness :
    ({ initState with
        click_debounce_counter := 1
        last_hand_y := 300 } : RecognizerState).last_hand_y = (P 0 300).y ∧
    ({ initState with
        click_debounce_counter := 1
        last_hand_y := 300 } : RecognizerState).last_zoom_dist =
      (if [false, true, false, false, false].count true = 2 ∧ false = true ∧ true = true
       then calculate_distance (P 0 0) (P 0 (-20)) else 0) := by
  have hres : recognize defaultConfig [clickHand] clickState2 =
      Except.ok (Gesture.NONE,
        { initState with click_debounce_counter := 1, last_hand_y := 300 }) := by
    rw [recognize_one_hand_eq defaultConfig clickHand clickState2 false true false false
      false (P 0 300) (P 0 0) (P 0 (-20)) (P 0 10) clickHand_fs rfl rfl rfl rfl]
    unfold classify rule_zoom rule_scroll rule_cursor_move
    norm_num [clickState2, initState, _update_debounce_counters, P]
  exact tracking_updates_on_fallthrough defaultConfig clickHand clickState2 _
    Gesture.NONE false true false false false (P 0 300) (P 0 0) (P 0 (-20)) (P 0 10)
    clickHand_fs rfl rfl rfl rfl hres (Or.inr rfl)

/-! ## Claim C6 -/

theorem rule_scroll_counters (config : Config) (n : ℕ) (wy : ℝ)
    (st : RecognizerState) (g : Gesture) (st' : RecognizerState)
    (h : rule_scroll config n wy st = (g, st')) :
    st'.click_debounce_counter = st.click_debounce_counter ∧
    st'.zoom_debounce_counter = st.zoom_debounce_counter ∧
    st'.tab_switch_debounce_counter = st.tab_switch_debounce_counter ∧
    st'.desktop_switch_debounce_counter = st.desktop_switch_debounce_counter ∧
    (st'.scroll_debounce_counter = st.scroll_debounce_counter ∨
      (st.scroll_debounce_counter = 0 ∧
        st'.scroll_debounce_counter = config.DEBOUNCE_TIME_SHORT)) := by
  unfold rule_scroll rule_cursor_move at h
  by_cases hc : n = 5 ∧ st.scroll_debounce_counter = 0
  · rw [if_pos hc] at h
    dsimp only at h
    by_cases hf : |wy - st.last_hand_y| > config.SCROLL_SENSITIVITY
    · rw [if_pos hf] at h
      injection h with h1 h2
      subst h2
      simp [hc.2]
    · rw [if_neg hf] at h
      split_ifs at h <;> (injection h with h1 h2; subst h2; simp)
  · rw [if_neg hc] at h
    split_ifs at h <;> (injection h with h1 h2; subst h2; simp)

theorem rule_zoom_counters (config : Config) (n : ℕ) (t i : Bool) (d wy : ℝ)
    (st : RecognizerState) (g : Gesture) (st' : RecognizerState)
    (h : rule_zoom config n t i d wy st = (g, st')) :
    st'.click_debounce_counter = st.click_debounce_counter ∧
    st'.tab_switch_debounce_counter = st.tab_switch_debounce_counter ∧
    st'.desktop_switch_debounce_counter = st.desktop_switch_debounce_counter ∧
    (st'.zoom_debounce_counter = st.zoom_debounce_counter ∨
      (st.zoom_debounce_counter = 0 ∧
        st'.zoom_debounce_counter = config.DEBOUNCE_TIME_LONG)) ∧
    (st'.scroll_debounce_counter = st.scroll_debounce_counter ∨
      (st.scroll_debounce_counter = 0 ∧
        st'.scroll_debounce_counter = config.DEBOUNCE_TIME_SHORT)) := by
  unfold rule_zoom at h
  by_cases h1 : n = 2 ∧ t = true ∧ i = true
  · rw [if_pos h1] at h
    by_cases h2 : st.zoom_debounce_counter = 0 ∧
        |d - st.last_zoom_dist| > config.ZOOM_SENSITIVITY
    · rw [if_pos h2] at h
      injection h with hg hs
      subst hs
      simp [h2.1]
    · rw [if_neg h2] at h
      have hsc := rule_scroll_counters config n wy { st with last_zoom_dist := d } g st' h
      dsimp only at hsc
      tauto
  · rw [if_neg h1] at h
    have hsc := rule_scroll_counters config n wy { st with last_zoom_dist := 0 } g st' h
    dsimp only at hsc
    tauto

set_option maxHeartbeats 1600000 in
theorem classify_counters (config : Config) (f0 f1 f2 f3 f4 : Bool)
    (dti dtm wy : ℝ) (st : RecognizerState) (g : Gesture) (st' : RecognizerState)
    (h : classify config f0 f1 f2 f3 f4 dti dtm wy st = (g, st')) :
    st'.tab_switch_debounce_counter = st.tab_switch_debounce_counter ∧
    st'.desktop_switch_debounce_counter = st.desktop_switch_debounce_counter ∧
    (st'.click_debounce_counter = st.click_debounce_counter ∨
      (st.click_debounce_counter = 0 ∧
        st'.click_debounce_counter = config.DEBOUNCE_TIME)) ∧
    (st'.zoom_debounce_counter = st.zoom_debounce_counter ∨
      (st.zoom_debounce_counter = 0 ∧
        st'.zoom_debounce_counter = config.DEBOUNCE_TIME_LONG)) ∧
    (st'.scroll_debounce_counter = st.scroll_debounce_counter ∨
      (st.scroll_debounce_counter = 0 ∧
        st'.scroll_debounce_counter = config.DEBOUNCE_TIME_SHORT)) := by
  unfold classify at h
  dsimp only at h
  by_cases hA : [f0, f1, f2, f3, f4].count true = 0
  · rw [if_pos hA] at h
    split_ifs at h <;> (injection h with h1 h2; subst h2; simp)
  rw [if_neg hA] at h
  by_cases hB : 3 < [f0, f1, f2, f3, f4].count true ∧ st.drag_started = true
  · rw [if_pos hB] at h
    injection h with h1 h2
    subst h2
    simp
  rw [if_neg hB] at h
  by_cases hC : f1 = true ∧ (f2 = false ∧ f3 = false ∧ f4 = false) ∧
      dti < config.PINCH_THRESHOLD ∧ st.click_debounce_counter = 0
  · rw [if_pos hC] at h
    injection h with h1 h2
    subst h2
    simp [hC.2.2.2]
  rw [if_neg hC] at h
  by_cases hD : f2 = true ∧ f1 = false ∧ (f3 = false ∧ f4 = false) ∧
      dtm < config.PINCH_THRESHOLD ∧ st.click_debounce_counter = 0
  · rw [if_pos hD] at h
    injection h with h1 h2
    subst h2
    simp [hD.2.2.2.2]
  rw [if_neg hD] at h
  have hz := rule_zoom_counters config ([f0, f1, f2, f3, f4].count true) f0 f1
    dti wy st g st' h
  tauto

theorem recognize_counters (config : Config) (frame : List Hand)
    (s : RecognizerState) :
    (exceptState (recognize config frame s)).tab_switch_debounce_counter =
      (_update_debounce_counters s).tab_switch_debounce_counter ∧
    (exceptState (recognize config frame s)).desktop_switch_debounce_counter =
      (_update_debounce_counters s).desktop_switch_debounce_counter ∧
    ((exceptState (recognize config frame s)).click_debounce_counter =
        (_update_debounce_counters s).click_debounce_counter ∨
      ((_update_debounce_counters s).click_debounce_counter = 0 ∧
        (exceptState (recognize config frame s)).click_debounce_counter =
          config.DEBOUNCE_TIME)) ∧
    ((exceptState (recognize config frame s)).zoom_debounce_counter =
        (_update_debounce_counters s).zoom_debounce_counter ∨
      ((_update_debounce_counters s).zoom_debounce_counter = 0 ∧
        (exceptState (recognize config frame s)).zoom_debounce_counter =
          config.DEBOUNCE_TIME_LONG)) ∧
    ((exceptState (recognize config frame s)).scroll_debounce_counter =
        (_update_debounce_counters s).scroll_debounce_counter ∨
      ((_update_debounce_counters s).scroll_debounce_counter = 0 ∧
        (exceptState (recognize config frame s)).scroll_debounce_counter =
          config.DEBOUNCE_TIME_SHORT)) := by
  cases frame with
  | nil =>
    unfold recognize
    dsimp only
    split_ifs <;> simp [exceptState]
  | cons hand rest =>
    unfold recognize
    dsimp only
    split_ifs with h2
    · simp [exceptState, _recognize_two_hand_gestures]
    · unfold recognize_single_hand
      split
      · dsimp only [exceptState]
        exact classify_counters _ _ _ _ _ _ _ _ _ _ _ _ Prod.mk.eta.symm
      · dsimp only [exceptState]
        simp

theorem dec_click_eq (s : RecognizerState) :
    (_update_debounce_counters s).click_debounce_counter =
      (if s.click_debounce_counter > 0 then s.click_debounce_counter - 1
       else s.click_debounce_counter) := rfl

theorem dec_scroll_eq (s : RecognizerState) :
    (_update_debounce_counters s).scroll_debounce_counter =
      (if s.scroll_debounce_counter > 0 then s.scroll_debounce_counter - 1
       else s.scroll_debounce_counter) := rfl

theorem dec_zoom_eq (s : RecognizerState) :
    (_update_debounce_counters s).zoom_debounce_counter =
      (if s.zoom_debounce_counter > 0 then s.zoom_debounce_counter - 1
       else s.zoom_debounce_counter) := rfl

theorem dec_tab_eq (s : RecognizerState) :
    (_update_debounce_counters s).tab_switch_debounce_counter =
      (if s.tab_switch_debounce_counter > 0 then s.tab_switch_debounce_counter - 1
       else s.tab_switch_debounce_counter) := rfl

theorem dec_desk_eq (s : RecognizerState) :
    (_update_debounce_counters s).desktop_switch_debounce_counter =
      (if s.desktop_switch_debounce_counter > 0 then s.desktop_switch_debounce_counter - 1
       else s.desktop_switch_debounce_counter) := rfl

theorem recognize_nil_click (config : Config) (s : RecognizerState) :
    (exceptState (recognize config [] s)).click_debounce_counter =
      (_update_debounce_counters s).click_debounce_counter := by
  unfold recognize
  dsimp only
  split_ifs <;> rfl

theorem recognize_nil_scroll (config : Config) (s : RecognizerState) :
    (exceptState (recognize config [] s)).scroll_debounce_counter =
      (_update_debounce_counters s).scroll_debounce_counter := by
  unfold recognize
  dsimp only
  split_ifs <;> rfl

theorem recognize_nil_zoom (config : Config) (s : RecognizerState) :
    (exceptState (recognize config [] s)).zoom_debounce_counter =
      (_update_debounce_counters s).zoom_debounce_counter := by
  unfold recognize
  dsimp only
  split_ifs <;> rfl

theorem recognize_nil_tab (config : Config) (s : RecognizerState) :
    (exceptState (recognize config [] s)).tab_switch_debounce_counter =
      (_update_debounce_counters s).tab_switch_debounce_counter := by
  unfold recognize
  dsimp only
  split_ifs <;> rfl

theorem recognize_nil_desk (config : Config) (s : RecognizerState) :
    (exceptState (recognize config [] s)).desktop_switch_debounce_counter =
      (_update_debounce_counters s).desktop_switch_debounce_counter := by
  unfold recognize
  dsimp only
  split_ifs <;> rfl

/-- C6: on every call of `recognize`, each of the five debounce counters
decreases by at most 1 and stays nonnegative (given the nonnegative configured
debounce times); and iterating `recognize` on the zero-hand frame N times
decrements each counter by `min N counter`, never below 0. -/
theorem debounce_counters_spec (config : Config)
    (hT : 0 ≤ config.DEBOUNCE_TIME) (hS : 0 ≤ config.DEBOUNCE_TIME_SHORT)
    (hL : 0 ≤ config.DEBOUNCE_TIME_LONG) :
    (∀ (frame : List Hand) (s : RecognizerState),
      0 ≤ s.click_debounce_counter → 0 ≤ s.scroll_debounce_counter →
      0 ≤ s.zoom_debounce_counter → 0 ≤ s.tab_switch_debounce_counter →
      0 ≤ s.desktop_switch_debounce_counter →
      (s.click_debounce_counter - 1 ≤
          (exceptState (recognize config frame s)).click_debounce_counter ∧
        0 ≤ (exceptState (recognize config frame s)).click_debounce_counter) ∧
      (s.scroll_debounce_counter - 1 ≤
          (exceptState (recognize config frame s)).scroll_debounce_counter ∧
        0 ≤ (exceptState (recognize config frame s)).scroll_debounce_counter) ∧
      (s.zoom_debounce_counter - 1 ≤
          (exceptState (recognize config frame s)).zoom_debounce_counter ∧
        0 ≤ (exceptState (recognize config frame s)).zoom_debounce_counter) ∧
      (s.tab_switch_debounce_counter - 1 ≤
          (exceptState (recognize config frame s)).tab_switch_debounce_counter ∧
        0 ≤ (exceptState (recognize config frame s)).tab_switch_debounce_counter) ∧
      (s.desktop_switch_debounce_counter - 1 ≤
          (exceptState (recognize config frame s)).desktop_switch_debounce_counter ∧
        0 ≤ (exceptState (recognize config frame s)).desktop_switch_debounce_counter)) ∧
    (∀ (N : ℕ) (s : RecognizerState),
      0 ≤ s.click_debounce_counter → 0 ≤ s.scroll_debounce_counter →
      0 ≤ s.zoom_debounce_counter → 0 ≤ s.tab_switch_debounce_counter →
      0 ≤ s.desktop_switch_debounce_counter →
      (iterZero config N s).click_debounce_counter =
        s.click_debounce_counter - min (N : ℤ) s.click_debounce_counter ∧
      (iterZero config N s).scroll_debounce_counter =
        s.scroll_debounce_counter - min (N : ℤ) s.scroll_debounce_counter ∧
      (iterZero config N s).zoom_debounce_counter =
        s.zoom_debounce_counter - min (N : ℤ) s.zoom_debounce_counter ∧
      (iterZero config N s).tab_switch_debounce_counter =
        s.tab_switch_debounce_counter - min (N : ℤ) s.tab_switch_debounce_counter ∧
      (iterZero config N s).desktop_switch_debounce_counter =
        s.desktop_switch_debounce_counter -
          min (N : ℤ) s.desktop_switch_debounce_counter) := by
  constructor
  · intro frame s hc hs hz htb hd
    obtain ⟨h1, h2, h3, h4, h5⟩ := recognize_counters config frame s
    have dC := dec_click_eq s
    have dS := dec_scroll_eq s
    have dZ := dec_zoom_eq s
    have dT := dec_tab_eq s
    have dD := dec_desk_eq s
    refine ⟨?_, ?_, ?_, ?_, ?_⟩
    · rcases h3 with h | ⟨h0, h⟩
      · rw [h, dC]
        split_ifs <;> omega
      · rw [dC] at h0
        rw [h]
        split_ifs at h0 <;> omega
    · rcases h5 with h | ⟨h0, h⟩
      · rw [h, dS]
        split_ifs <;> omega
      · rw [dS] at h0
        rw [h]
        split_ifs at h0 <;> omega
    · rcases h4 with h | ⟨h0, h⟩
      · rw [h, dZ]
        split_ifs <;> omega
      · rw [dZ] at h0
        rw [h]
        split_ifs at h0 <;> omega
    · rw [h1, dT]
      split_ifs <;> omega
    · rw [h2, dD]
      split_ifs <;> omega
  · intro N
    induction N with
    | zero =>
      intro s hc hs hz htb hd
      simp only [iterZero, Nat.cast_zero]
      refine ⟨?_, ?_, ?_, ?_, ?_⟩ <;> omega
    | succ n ih =>
      intro s hc hs hz htb hd
      have st1 := recognize_nil_click config s
      have st2 := recognize_nil_scroll config s
      have st3 := recognize_nil_zoom config s
      have st4 := recognize_nil_tab config s
      have st5 := recognize_nil_desk config s
      obtain ⟨i1, i2, i3, i4, i5⟩ := ih (exceptState (recognize config [] s))
        (by rw [st1, dec_click_eq]; split_ifs <;> omega)
        (by rw [st2, dec_scroll_eq]; split_ifs <;> omega)
        (by rw [st3, dec_zoom_eq]; split_ifs <;> omega)
        (by rw [st4, dec_tab_eq]; split_ifs <;> omega)
        (by rw [st5, dec_desk_eq]; split_ifs <;> omega)
      have hiter : iterZero config (n + 1) s =
          iterZero config n (exceptState (recognize config [] s)) := rfl
      rw [hiter]
      refine ⟨?_, ?_, ?_, ?_, ?_⟩
      · rw [i1, st1, dec_click_eq]
        push_cast
        split_ifs <;> omega
      · rw [i2, st2, dec_scroll_eq]
        push_cast
        split_ifs <;> omega
      · rw [i3, st3, dec_zoom_eq]
        push_cast
        split_ifs <;> omega
      · rw [i4, st4, dec_tab_eq]
        push_cast
        split_ifs <;> omega
      · rw [i5, st5, dec_desk_eq]
        push_cast
        split_ifs <;> omega

theorem debounce_counters_spec_witness :
    ((ctrState.click_debounce_counter - 1 ≤
        (exceptState (recognize defaultConfig [] ctrState)).click_debounce_counter ∧
      0 ≤ (exceptState (recognize defaultConfig [] ctrState)).click_debounce_counter) ∧
     (ctrState.scroll_debounce_counter - 1 ≤
        (exceptState (recognize defaultConfig [] ctrState)).scroll_debounce_counter ∧
      0 ≤ (exceptState (recognize defaultConfig [] ctrState)).scroll_debounce_counter) ∧
     (ctrState.zoom_debounce_counter - 1 ≤
        (exceptState (recognize defaultConfig [] ctrState)).zoom_debounce_counter ∧
      0 ≤ (exceptState (recognize defaultConfig [] ctrState)).zoom_debounce_counter) ∧
     (ctrState.tab_switch_debounce_counter - 1 ≤
        (exceptState (recognize defaultConfig [] ctrState)).tab_switch_debounce_counter ∧
      0 ≤ (exceptState (recognize defaultConfig [] ctrState)).tab_switch_debounce_counter) ∧
     (ctrState.desktop_switch_debounce_counter - 1 ≤
        (exceptState (recognize defaultConfig [] ctrState)).desktop_switch_debounce_counter ∧
      0 ≤ (exceptState (recognize defaultConfig [] ctrState)).desktop_switch_debounce_counter)) ∧
    ((iterZero defaultConfig 7 ctrState).click_debounce_counter =
      ctrState.click_debounce_counter - min (7 : ℤ) ctrState.click_debounce_counter ∧
     (iterZero defaultConfig 7 ctrState).scroll_debounce_counter =
      ctrState.scroll_debounce_counter - min (7 : ℤ) ctrState.scroll_debounce_counter ∧
     (iterZero defaultConfig 7 ctrState).zoom_debounce_counter =
      ctrState.zoom_debounce_counter - min (7 : ℤ) ctrState.zoom_debounce_counter ∧
     (iterZero defaultConfig 7 ctrState).tab_switch_debounce_counter =
      ctrState.tab_switch_debounce_counter - min (7 : ℤ) ctrState.tab_switch_debounce_counter ∧
     (iterZero defaultConfig 7 ctrState).desktop_switch_debounce_counter =
      ctrState.desktop_switch_debounce_counter -
        min (7 : ℤ) ctrState.desktop_switch_debounce_counter) := by
  have h := debounce_counters_spec defaultConfig (by norm_num [defaultConfig])
    (by norm_num [defaultConfig]) (by norm_num [defaultConfig])
  exact ⟨h.1 [] ctrState (by decide) (by decide) (by decide) (by decide) (by decide),
    h.2 7 ctrState (by decide) (by decide) (by decide) (by decide) (by decide)⟩

/-! ## Claim C7 -/

/-- A one-hand frame satisfying the left-click pinch condition: index
extended, middle/ring/pinky not (the thumb entry is arbitrary), and
thumb–index distance under `PINCH_THRESHOLD`. -/
def clickPinchFrame (config : Config) (f : List Hand) : Prop :=
  ∃ (hand : Hand) (f0 : Bool) (p0 p4 p8 p12 : Point),
    f = [hand] ∧
    _get_finger_states hand.landmarks = some [f0, true, false, false, false] ∧
    hand.landmarks.get? 0 = some p0 ∧
    hand.landmarks.get? 4 = some p4 ∧
    hand.landmarks.get? 8 = some p8 ∧
    hand.landmarks.get? 12 = some p12 ∧
    calculate_distance p4 p8 < config.PINCH_THRESHOLD

/-- On a click-pinch frame with a free (post-decrement zero) click counter,
the call emits `LEFT_CLICK` and arms the counter with `DEBOUNCE_TIME`. -/
theorem clickPinch_fire (config : Config) (f : List Hand) (s : RecognizerState)
    (hf : clickPinchFrame config f)
    (h0 : (_update_debounce_counters s).click_debounce_counter = 0) :
    ∃ s', recognize config f s = Except.ok (Gesture.LEFT_CLICK, s') ∧
      s'.click_debounce_counter = config.DEBOUNCE_TIME := by
  obtain ⟨hand, f0, p0, p4, p8, p12, rfl, hfs, hg0, hg4, hg8, hg12, hd⟩ := hf
  rw [recognize_one_hand_eq config hand s f0 true false false false p0 p4 p8 p12
    hfs hg0 hg4 hg8 hg12]
  unfold classify
  dsimp only
  rw [if_neg (by cases f0 <;> decide)]
  rw [if_neg (fun hh => absurd hh.1 (by cases f0 <;> decide))]
  rw [if_pos ⟨rfl, ⟨rfl, rfl, rfl⟩, hd, h0⟩]
  exact ⟨_, rfl, rfl⟩

/-- On a click-pinch frame with a busy (post-decrement nonzero) click counter,
the call emits neither click event and leaves the click counter at its
decremented value. -/
theorem clickPinch_blocked (config : Config) (f : List Hand) (s : RecognizerState)
    (hf : clickPinchFrame config f)
    (h0 : (_update_debounce_counters s).click_debounce_counter ≠ 0) :
    ∃ e s', recognize config f s = Except.ok (e, s') ∧
      e ≠ Gesture.LEFT_CLICK ∧ e ≠ Gesture.RIGHT_CLICK ∧
      s'.click_debounce_counter =
        (_update_debounce_counters s).click_debounce_counter := by
  obtain ⟨hand, f0, p0, p4, p8, p12, rfl, hfs, hg0, hg4, hg8, hg12, hd⟩ := hf
  rw [recognize_one_hand_eq config hand s f0 true false false false p0 p4 p8 p12
    hfs hg0 hg4 hg8 hg12]
  unfold classify
  dsimp only
  rw [if_neg (by cases f0 <;> decide)]
  rw [if_neg (fun hh => absurd hh.1 (by cases f0 <;> decide))]
  rw [if_neg (fun hh => h0 hh.2.2.2)]
  rw [if_neg (fun hh => absurd hh.1 (by decide))]
  refine ⟨_, _, congrArg Except.ok Prod.mk.eta.symm, ?_, ?_, ?_⟩
  · exact (rule_zoom_event_ne_click config _ f0 true _ p0.y _).1
  · exact (rule_zoom_event_ne_click config _ f0 true _ p0.y _).2
  · exact rule_zoom_click_counter config _ f0 true _ p0.y _

/-- C7: with `DEBOUNCE_TIME = 10` and `debounce_click = 0` at the start,
eleven consecutive single-hand frames all satisfying the left-click pinch
condition yield `LEFT_CLICK` on frame 1, a non-click event on each of frames
2–10, and `LEFT_CLICK` again on frame 11. -/
theorem click_debounce_sequence_spec (config : Config)
    (g1 g2 g3 g4 g5 g6 g7 g8 g9 g10 g11 : List Hand) (s : RecognizerState)
    (hcfg : config.DEBOUNCE_TIME = 10)
    (hs : s.click_debounce_counter = 0)
    (h1 : clickPinchFrame config g1) (h2 : clickPinchFrame config g2)
    (h3 : clickPinchFrame config g3) (h4 : clickPinchFrame config g4)
    (h5 : clickPinchFrame config g5) (h6 : clickPinchFrame config g6)
    (h7 : clickPinchFrame config g7) (h8 : clickPinchFrame config g8)
    (h9 : clickPinchFrame config g9) (h10 : clickPinchFrame config g10)
    (h11 : clickPinchFrame config g11) :
    (runRec config [g1, g2, g3, g4, g5, g6, g7, g8, g9, g10, g11] s).1.get? 0 =
      some Gesture.LEFT_CLICK ∧
    (∀ i, 1 ≤ i → i ≤ 9 →
      ∃ e, (runRec config [g1, g2, g3, g4, g5, g6, g7, g8, g9, g10, g11] s).1.get? i =
          some e ∧
        e ≠ Gesture.LEFT_CLICK ∧ e ≠ Gesture.RIGHT_CLICK) ∧
    (runRec config [g1, g2, g3, g4, g5, g6, g7, g8, g9, g10, g11] s).1.get? 10 =
      some Gesture.LEFT_CLICK := by
  obtain ⟨s1, e1eq, v1⟩ := clickPinch_fire config g1 s h1
    (by rw [dec_click_eq, hs]; norm_num)
  obtain ⟨e2, s2, e2eq, l2, r2, c2⟩ := clickPinch_blocked config g2 s1 h2
    (by rw [dec_click_eq, v1, hcfg]; norm_num)
  have v2 : s2.click_debounce_counter = 9 := by
    rw [c2, dec_click_eq, v1, hcfg]
    norm_num
  obtain ⟨e3, s3, e3eq, l3, r3, c3⟩ := clickPinch_blocked config g3 s2 h3
    (by rw [dec_click_eq, v2]; norm_num)
  have v3 : s3.click_debounce_counter = 8 := by
    rw [c3, dec_click_eq, v2]
    norm_num
  obtain ⟨e4, s4, e4eq, l4, r4, c4⟩ := clickPinch_blocked config g4 s3 h4
    (by rw [dec_click_eq, v3]; norm_num)
  have v4 : s4.click_debounce_counter = 7 := by
    rw [c4, dec_click_eq, v3]
    norm_num
  obtain ⟨e5, s5, e5eq, l5, r5, c5⟩ := clickPinch_blocked config g5 s4 h5
    (by rw [dec_click_eq, v4]; norm_num)
  have v5 : s5.click_debounce_counter = 6 := by
    rw [c5, dec_click_eq, v4]
    norm_num
  obtain ⟨e6, s6, e6eq, l6, r6, c6⟩ := clickPinch_blocked config g6 s5 h6
    (by rw [dec_click_eq, v5]; norm_num)
  have v6 : s6.click_debounce_counter = 5 := by
    rw [c6, dec_click_eq, v5]
    norm_num
  obtain ⟨e7, s7, e7eq, l7, r7, c7⟩ := clickPinch_blocked config g7 s6 h7
    (by rw [dec_click_eq, v6]; norm_num)
  have v7 : s7.click_debounce_counter = 4 := by
    rw [c7, dec_click_eq, v6]
    norm_num
  obtain ⟨e8, s8, e8eq, l8, r8, c8⟩ := clickPinch_blocked config g8 s7 h8
    (by rw [dec_click_eq, v7]; norm_num)
  have v8 : s8.click_debounce_counter = 3 := by
    rw [c8, dec_click_eq, v7]
    norm_num
  obtain ⟨e9, s9, e9eq, l9, r9, c9⟩ := clickPinch_blocked config g9 s8 h9
    (by rw [dec_click_eq, v8]; norm_num)
  have v9 : s9.click_debounce_counter = 2 := by
    rw [c9, dec_click_eq, v8]
    norm_num
  obtain ⟨e10, s10, e10eq, l10, r10, c10⟩ := clickPinch_blocked config g10 s9 h10
    (by rw [dec_click_eq, v9]; norm_num)
  have v10 : s10.click_debounce_counter = 1 := by
    rw [c10, dec_click_eq, v9]
    norm_num
  obtain ⟨s11, e11eq, v11⟩ := clickPinch_fire config g11 s10 h11
    (by rw [dec_click_eq, v10]; norm_num)
  have hrun : runRec config [g1, g2, g3, g4, g5, g6, g7, g8, g9, g10, g11] s =
      ((Gesture.LEFT_CLICK :: e2 :: e3 :: e4 :: e5 :: e6 :: e7 :: e8 :: e9 :: e10 ::
        Gesture.LEFT_CLICK :: []), s11) := by
    simp only [runRec, e1eq, e2eq, e3eq, e4eq, e5eq, e6eq, e7eq, e8eq, e9eq, e10eq,
      e11eq]
  rw [hrun]
  refine ⟨rfl, ?_, rfl⟩
  intro i hi1 hi9
  interval_cases i
  · exact ⟨e2, rfl, l2, r2⟩
  · exact ⟨e3, rfl, l3, r3⟩
  · exact ⟨e4, rfl, l4, r4⟩
  · exact ⟨e5, rfl, l5, r5⟩
  · exact ⟨e6, rfl, l6, r6⟩
  · exact ⟨e7, rfl, l7, r7⟩
  · exact ⟨e8, rfl, l8, r8⟩
  · exact ⟨e9, rfl, l9, r9⟩
  · exact ⟨e10, rfl, l10, r10⟩

theorem click_debounce_sequence_spec_witness :
    (runRec defaultConfig [[clickHand], [clickHand], [clickHand], [clickHand],
      [clickHand], [clickHand], [clickHand], [clickHand], [clickHand], [clickHand],
      [clickHand]] initState).1.get? 0 = some Gesture.LEFT_CLICK ∧
    (runRec defaultConfig [[clickHand], [clickHand], [clickHand], [clickHand],
      [clickHand], [clickHand], [clickHand], [clickHand], [clickHand], [clickHand],
      [clickHand]] initState).1.get? 10 = some Gesture.LEFT_CLICK := by
  have hcf : clickPinchFrame defaultConfig [clickHand] := by
    refine ⟨clickHand, false, P 0 300, P 0 0, P 0 (-20), P 0 10, rfl, clickHand_fs,
      rfl, rfl, rfl, rfl, ?_⟩
    rw [calculate_distance_vertical 0 0 (-20) 20 (by norm_num) (by norm_num)]
    norm_num [defaultConfig]
  have h := click_debounce_sequence_spec defaultConfig _ _ _ _ _ _ _ _ _ _ _ initState
    rfl rfl hcf hcf hcf hcf hcf hcf hcf hcf hcf hcf hcf
  exact ⟨h.1, h.2.2⟩
